import Mathlib

/-! # Verification of the ESG backend core (`main.py`)

Shallow embedding of the invoice extraction / normalization pipeline and of
the fallback-chained insight generation logic.

Modelling conventions:
* Python floats are embedded as rationals (`ℚ`).  Binary floating point,
  `inf`/`nan` and shortest-roundtrip float printing are outside this
  embedding; the spots where that matters are flagged in comments.
* Exceptions are embedded as `Option`: a `none` result of a helper models an
  exception escaping it; `try/except` blocks become a `match` on such options.
* External collaborators (the PDF text extractor, the Python `re` engine run
  over that text, the OpenAI transport) are modelled as an explicit
  environment holding their results, exactly as §6 of the spec treats them.
-/

namespace AfricaESG

/-- Python runtime values seen by the embedded fragment (`None`, bools,
numbers, strings, lists, dicts).  A number carries one rational; the Python
`int`/`float` distinction is irrelevant to every embedded function (both
convert via `float(x)` to the same value). -/
inductive PyVal where
  | none : PyVal
  | bool (b : Bool) : PyVal
  | num (q : ℚ) : PyVal
  | str (s : String) : PyVal
  | list (xs : List PyVal) : PyVal
  | dict (kvs : List (String × PyVal)) : PyVal

/-- The whitespace characters stripped by Python `str.strip()` /
accepted around `float()` literals (ASCII subset). -/
def pyWS (c : Char) : Bool :=
  c = ' ' || c = '\t' || c = '\n' || c = '\x0d' || c = '\x0b' || c = '\x0c'

/-- Python `str.strip()`: remove leading and trailing whitespace. -/
def pyStrip (s : String) : String :=
  String.mk (((s.data.dropWhile pyWS).reverse.dropWhile pyWS).reverse)

/-- Split off the maximal head run of decimal digits and underscores. -/
def takeDigitRun (l : List Char) : List Char × List Char :=
  (l.takeWhile (fun c => c.isDigit || c = '_'), l.dropWhile (fun c => c.isDigit || c = '_'))

/-- Tail of Python's `digitpart` grammar `digit (["_"] digit)*`. -/
def groupedOkTail : List Char → Bool
  | [] => true
  | '_' :: rest =>
    match rest with
    | [] => false
    | c :: rest' => c.isDigit && groupedOkTail rest'
  | c :: rest => c.isDigit && groupedOkTail rest

/-- Python's `digitpart`: digits with single underscores between digits
(the numeric-literal grouping `float()` accepts since 3.6). -/
def groupedOk : List Char → Bool
  | [] => false
  | c :: rest => c.isDigit && groupedOkTail rest

/-- Consume a possibly-empty `digitpart` at the head: returns the digits
(underscores removed) and the rest; `none` when the head run of digits and
underscores is not a well-formed `digitpart` (`float()` raises). -/
def parseDigitsU (l : List Char) : Option (List Char × List Char) :=
  let (run, rest) := takeDigitRun l
  if run.isEmpty then some ([], rest)
  else if groupedOk run then some (run.filter (fun c => c ≠ '_'), rest)
  else Option.none

/-- Numeric value of a digit run. -/
def digitsVal (l : List Char) : ℕ :=
  l.foldl (fun a c => a * 10 + (c.toNat - 48)) 0

/-- A required exponent digit run with the given sign. -/
def parseExpVal (sign : ℤ) (l : List Char) : Option (ℤ × List Char) :=
  match parseDigitsU l with
  | some (ds, r) => if ds.isEmpty then Option.none else some (sign * (digitsVal ds : ℤ), r)
  | Option.none => Option.none

/-- Parse the optional exponent part `([eE][+-]?digits)?`; fails on a
malformed exponent, otherwise returns the exponent and the rest. -/
def parseExpPart : List Char → Option (ℤ × List Char)
  | 'e' :: rest => parseExpSign rest
  | 'E' :: rest => parseExpSign rest
  | l => some (0, l)
where
  parseExpSign : List Char → Option (ℤ × List Char)
  | '+' :: rest => parseExpVal 1 rest
  | '-' :: rest => parseExpVal (-1) rest
  | l => parseExpVal 1 l

/-- Mantissa digits and decimal exponent assembled into a rational:
`±digits(ip ++ fp) · 10 ^ (e - |fp|)`, computed inside `ℤ` when the net
exponent is non-negative (kernel-computable form). -/
def assembleFloat (neg : Bool) (ip fp : List Char) (e : ℤ) : ℚ :=
  let m : ℤ := (if neg then -1 else 1) * (digitsVal (ip ++ fp) : ℤ)
  let k : ℤ := e - fp.length
  if 0 ≤ k then ((m * 10 ^ k.toNat : ℤ) : ℚ)
  else (m : ℚ) / ((10 ^ (-k).toNat : ℕ) : ℚ)

/-- Body of the Python `float(string)` literal parser, after whitespace
stripping and sign extraction: `digits[.digits][exp]` or `.digits[exp]`,
requiring full consumption of the input. -/
def pyFloatBody (neg : Bool) (l : List Char) : Option ℚ :=
  match parseDigitsU l with
  | Option.none => Option.none
  | some (ip, l1) =>
    if ip.isEmpty then
      match l1 with
      | '.' :: l2 =>
        match parseDigitsU l2 with
        | Option.none => Option.none
        | some (fp, l3) =>
          if fp.isEmpty then Option.none
          else
            match parseExpPart l3 with
            | some (e, []) => some (assembleFloat neg ip fp e)
            | _ => Option.none
      | _ => Option.none
    else
      match l1 with
      | '.' :: l2 =>
        match parseDigitsU l2 with
        | Option.none => Option.none
        | some (fp, l3) =>
          match parseExpPart l3 with
          | some (e, []) => some (assembleFloat neg ip fp e)
          | _ => Option.none
      | _ =>
        match parseExpPart l1 with
        | some (e, []) => some (assembleFloat neg ip [] e)
        | _ => Option.none

/-- Python `float(string)` on finite decimal literals: surrounding
whitespace, optional sign, integer/fraction digits (with `_` grouping) and
optional decimal exponent.  `inf`/`infinity`/`nan` literals produce
non-finite floats, which are outside the rational embedding; they are
modelled as a parse failure (no embedded claim exercises them). -/
def pyFloat (s : String) : Option ℚ :=
  let l := ((s.data.dropWhile pyWS).reverse.dropWhile pyWS).reverse
  match l with
  | '+' :: rest => pyFloatBody false rest
  | '-' :: rest => pyFloatBody true rest
  | _ => pyFloatBody false l

/-- Python `s.replace(c, "")` for a one-character pattern: remove every
occurrence (kernel-computable form of the single-character `str.replace`
calls in the source). -/
def removeAll (c : Char) (s : String) : String :=
  String.mk (s.data.filter (fun x => x ≠ c))

/-- `_safe_float` (main.py:127-135): `None` stays the no-value marker;
strings lose all commas and surrounding whitespace before `float()`;
any conversion failure (`float` of a list/dict/garbage string raises)
yields the no-value marker.  `float(bool)` succeeds in Python, hence the
bool case. -/
def _safe_float : PyVal → Option ℚ
  | PyVal.none => Option.none
  | PyVal.bool b => some (if b then 1 else 0)
  | PyVal.num q => some q
  | PyVal.str s => pyFloat (pyStrip (removeAll ',' s))
  | PyVal.list _ => Option.none
  | PyVal.dict _ => Option.none

/-- The value written back for a normalized numeric field:
`_safe_float` result, or Python `None` on failure. -/
def floatField (v : PyVal) : PyVal :=
  match _safe_float v with
  | some q => PyVal.num q
  | Option.none => PyVal.none

/-- Normalization of one optional numeric dict entry: a missing key
(`k in out` false) is left missing, a present one is coerced. -/
def normNum : Option PyVal → Option PyVal
  | some v => some (floatField v)
  | Option.none => Option.none

/-- One `sixMonthHistory` entry: a dict holding a month label and the seven
numeric keys `_normalize_invoice` coerces.  A Python `None` row
(`dict(row or {})`) is the all-missing row. -/
structure MonthRow where
  month_label : Option PyVal := Option.none
  energyKWh : Option PyVal := Option.none
  total_current_charges : Option PyVal := Option.none
  total_amount_due : Option PyVal := Option.none
  maximum_demand_kva : Option PyVal := Option.none
  carbonTco2e : Option PyVal := Option.none
  water_m3 : Option PyVal := Option.none
  water_cost : Option PyVal := Option.none

/-- Value stored under `sixMonthHistory`: either an actual list of row
dicts, or any other Python value (which `_normalize_invoice` leaves
untouched because of its `isinstance(..., list)` guard). -/
inductive HistVal where
  | list (rows : List MonthRow) : HistVal
  | other (v : PyVal) : HistVal

/-- An invoice-shaped record: the dict keys read or written by the embedded
fragment, each `Option` (missing key vs. present value).  Keys never touched
by any embedded function are omitted; they pass through every embedded
operation unchanged. -/
structure Invoice where
  filename : Option PyVal := Option.none
  company_name : Option PyVal := Option.none
  account_number : Option PyVal := Option.none
  tax_invoice_number : Option PyVal := Option.none
  invoice_date : Option PyVal := Option.none
  due_date : Option PyVal := Option.none
  total_current_charges : Option PyVal := Option.none
  total_amount_due : Option PyVal := Option.none
  total_energy_kwh : Option PyVal := Option.none
  water_usage : Option PyVal := Option.none
  water_cost : Option PyVal := Option.none
  categories : Option PyVal := Option.none
  sixMonthHistory : Option HistVal := Option.none
  created_at : Option PyVal := Option.none
  updated_at : Option PyVal := Option.none

/-- Per-row numeric coercion performed by `_normalize_invoice`
(main.py:148-161): the seven designated keys, when present, through
`_safe_float`. -/
def normalizeRow (r : MonthRow) : MonthRow :=
  { r with
    energyKWh := normNum r.energyKWh
    total_current_charges := normNum r.total_current_charges
    total_amount_due := normNum r.total_amount_due
    maximum_demand_kva := normNum r.maximum_demand_kva
    carbonTco2e := normNum r.carbonTco2e
    water_m3 := normNum r.water_m3
    water_cost := normNum r.water_cost }

/-- `_normalize_invoice` (main.py:137-166), with the wall clock passed
explicitly (`now` is what `now_iso()` returns during the call): coerce the
five top-level numeric keys, coerce every history row when the history value
is a list, default `created_at` only when absent (`setdefault`), and always
rewrite `updated_at`. -/
def _normalize_invoice (now : String) (inv : Invoice) : Invoice :=
  { inv with
    total_current_charges := normNum inv.total_current_charges
    total_amount_due := normNum inv.total_amount_due
    total_energy_kwh := normNum inv.total_energy_kwh
    water_usage := normNum inv.water_usage
    water_cost := normNum inv.water_cost
    sixMonthHistory :=
      match inv.sixMonthHistory with
      | some (HistVal.list rows) => some (HistVal.list (rows.map normalizeRow))
      | x => x
    created_at :=
      match inv.created_at with
      | some c => some c
      | Option.none => some (PyVal.str now)
    updated_at := some (PyVal.str now) }

/-! ## Insight line cleaning (`_clean_lines_to_list`, main.py:444-453) -/

/-- The character class of `re.sub(r"^[\-\*\d\.\)\s]+", "", ln)`:
hyphen, asterisk, decimal digits, period, closing parenthesis, whitespace. -/
def markerClass (c : Char) : Bool :=
  c = '-' || c = '*' || c.isDigit || c = '.' || c = ')' || pyWS c

/-- `re.sub(r"^[\-\*\d\.\)\s]+", "", ln).strip()`: the anchored greedy `+`
removes the maximal leading run of marker-class characters, then surrounding
whitespace is stripped. -/
def stripMarkers (s : String) : String :=
  pyStrip (String.mk (s.data.dropWhile markerClass))

/-- Python `str.splitlines()` over the line breaks produced by the modelled
callers (`\n`, `\r\n`, `\r`): every break terminates a line (possibly
empty); a final segment is a line only when non-empty. -/
def splitLinesAux : List Char → List Char → List String
  | [], acc => if acc.isEmpty then [] else [String.mk acc.reverse]
  | '\x0d' :: '\n' :: rest, acc => String.mk acc.reverse :: splitLinesAux rest []
  | '\n' :: rest, acc => String.mk acc.reverse :: splitLinesAux rest []
  | '\x0d' :: rest, acc => String.mk acc.reverse :: splitLinesAux rest []
  | c :: rest, acc => splitLinesAux rest (c :: acc)

def pySplitlines (s : String) : List String := splitLinesAux s.data []

/-- The seen-set deduplication loop of `_clean_lines_to_list`: keep a line
when it is non-empty and not seen before (case-sensitive, first occurrence
wins). -/
def dedupNonempty : List String → List String → List String
  | [], _ => []
  | ln :: rest, seen =>
    if ln ≠ "" ∧ ln ∉ seen then ln :: dedupNonempty rest (ln :: seen)
    else dedupNonempty rest seen

/-- `_clean_lines_to_list` (main.py:444-453): split into lines, strip each,
drop empties, remove leading bullet/numbering markers, then drop empty and
duplicate results preserving first-seen order. -/
def _clean_lines_to_list (text : String) : List String :=
  let lines := ((pySplitlines text).map pyStrip).filter (fun l => l ≠ "")
  let cleaned := lines.map stripMarkers
  dedupNonempty cleaned []

/-! ## Rounding and formatting helpers -/

/-- Round half to even of the fraction `n / d` (`d > 0`), in integer
arithmetic (the tie rule of Python `round` and of fixed-point float
formatting; kernel-computable).  The value only depends on `n / d`. -/
def rheNumDen (n : ℤ) (d : ℕ) : ℤ :=
  let fl := Int.fdiv n d
  let r2 := 2 * (n - fl * d)
  if r2 < d then fl
  else if (d : ℤ) < r2 then fl + 1
  else if fl % 2 = 0 then fl else fl + 1

/-- Python `round(x, 2)` on the embedded rationals: round `x · 100` half to
even, divide back.  (On binary floats the tie cases depend on the binary
representation; the rational embedding uses the exact value.) -/
def pyRound2 (q : ℚ) : ℚ := (rheNumDen (q.num * 100) q.den : ℚ) / 100

/-- Python `f"{r:.1f}"` on the embedded rationals: fixed one-decimal
rendering with ties to even; the sign also shows when a negative value
rounds to zero. -/
def fmt1 (q : ℚ) : String :=
  let n := rheNumDen (q.num * 10) q.den
  let sgn := if n < 0 ∨ (n = 0 ∧ q < 0) then "-" else ""
  sgn ++ toString (n.natAbs / 10) ++ "." ++ toString (n.natAbs % 10)

/-- Smallest `k` with `d ∣ 10 ^ k`, when one exists below the search bound. -/
def decExp (d : ℕ) : Option ℕ :=
  (List.range (d + 1)).find? (fun k => decide (d ∣ 10 ^ k))

/-- Zero-padded decimal rendering of `n` to width `k`. -/
def natPad (n k : ℕ) : String :=
  let s := toString n
  String.mk (List.replicate (k - s.length) '0') ++ s

/-- Exact decimal expansion of a rational whose denominator divides a power
of ten (every Python float value is of this form). -/
def decimalRepr (q : ℚ) : String :=
  match decExp q.den with
  | some 0 => toString q.num
  | some k =>
    let n := q.num.natAbs * 10 ^ k / q.den
    (if q.num < 0 then "-" else "") ++ toString (n / 10 ^ k) ++ "." ++ natPad (n % 10 ^ k) k
  | Option.none => toString q.num ++ " / " ++ toString q.den

/-- Python `str()` of a value as used on scalar fields.  Exact on strings,
`None` and bools.  Numbers render by exact decimal expansion: the embedding
does not distinguish `int` from `float` (Python prints `15` vs `15.0`), and
cannot reproduce shortest-roundtrip float repr; every theorem below only
evaluates `pyStr` at strings, where it is exact.  The composite reprs are
placeholders never exercised by any theorem. -/
def pyStr : PyVal → String
  | PyVal.none => "None"
  | PyVal.bool true => "True"
  | PyVal.bool false => "False"
  | PyVal.num q => decimalRepr q
  | PyVal.str s => s
  | PyVal.list _ => "[...]"
  | PyVal.dict _ => "<dict>"

/-! ## JSON parsing (Python `json.loads`, used by `generate_ai_mini_report`) -/

def jsonWS (c : Char) : Bool := c = ' ' || c = '\t' || c = '\n' || c = '\x0d'

def skipWS (l : List Char) : List Char := l.dropWhile jsonWS

def hexVal (c : Char) : Option ℕ :=
  if c.isDigit then some (c.toNat - 48)
  else if 'a' ≤ c ∧ c ≤ 'f' then some (c.toNat - 87)
  else if 'A' ≤ c ∧ c ≤ 'F' then some (c.toNat - 55)
  else Option.none

/-- JSON string body after the opening quote: escapes, hex escapes (lone
surrogates rejected rather than produced), raw control characters rejected. -/
def parseJStringAux : List Char → List Char → Option (String × List Char)
  | [], _ => Option.none
  | '"' :: rest, acc => some (String.mk acc.reverse, rest)
  | '\\' :: e :: rest, acc =>
    match e with
    | '"' => parseJStringAux rest ('"' :: acc)
    | '\\' => parseJStringAux rest ('\\' :: acc)
    | '/' => parseJStringAux rest ('/' :: acc)
    | 'b' => parseJStringAux rest ('\x08' :: acc)
    | 'f' => parseJStringAux rest ('\x0c' :: acc)
    | 'n' => parseJStringAux rest ('\n' :: acc)
    | 'r' => parseJStringAux rest ('\x0d' :: acc)
    | 't' => parseJStringAux rest ('\t' :: acc)
    | 'u' =>
      match rest with
      | a :: b :: c :: d :: rest' =>
        match hexVal a, hexVal b, hexVal c, hexVal d with
        | some ha, some hb, some hc, some hd =>
          let n := ((ha * 16 + hb) * 16 + hc) * 16 + hd
          if h : n.isValidChar then parseJStringAux rest' (Char.ofNatAux n h :: acc)
          else Option.none
        | _, _, _, _ => Option.none
      | _ => Option.none
    | _ => Option.none
  | c :: rest, acc =>
    if c.toNat < 32 then Option.none else parseJStringAux rest (c :: acc)

/-- A plain (underscore-free) digit run, as JSON numbers require. -/
def takeDigits (l : List Char) : List Char × List Char :=
  (l.takeWhile Char.isDigit, l.dropWhile Char.isDigit)

/-- JSON exponent part. -/
def parseJExp : List Char → Option (ℤ × List Char)
  | 'e' :: rest => parseJExpDigits rest
  | 'E' :: rest => parseJExpDigits rest
  | l => some (0, l)
where
  parseJExpDigits : List Char → Option (ℤ × List Char)
  | '+' :: rest =>
    let (ds, r) := takeDigits rest
    if ds.isEmpty then Option.none else some ((digitsVal ds : ℤ), r)
  | '-' :: rest =>
    let (ds, r) := takeDigits rest
    if ds.isEmpty then Option.none else some (-(digitsVal ds : ℤ), r)
  | l =>
    let (ds, r) := takeDigits l
    if ds.isEmpty then Option.none else some ((digitsVal ds : ℤ), r)

/-- JSON number: optional minus, integer part without leading zeros,
optional fraction and exponent. -/
def parseJNumber (l : List Char) : Option (ℚ × List Char) :=
  let (neg, l1) : Bool × List Char := match l with
    | '-' :: r => (true, r)
    | _ => (false, l)
  let (ip, l2) := takeDigits l1
  if ip.isEmpty then Option.none
  else if 1 < ip.length ∧ ip.head? = some '0' then Option.none
  else
    match l2 with
    | '.' :: r =>
      let (fp, l3) := takeDigits r
      if fp.isEmpty then Option.none
      else
        match parseJExp l3 with
        | some (e, r') => some (assembleFloat neg ip fp e, r')
        | Option.none => Option.none
    | _ =>
      match parseJExp l2 with
      | some (e, r') => some (assembleFloat neg ip [] e, r')
      | Option.none => Option.none

/-- Python dict insertion: an existing key keeps its position and its value
is overwritten; a new key is appended. -/
def insertKV (kvs : List (String × PyVal)) (k : String) (v : PyVal) :
    List (String × PyVal) :=
  if kvs.any (fun p => p.1 = k) then
    kvs.map (fun p => if p.1 = k then (k, v) else p)
  else kvs ++ [(k, v)]

mutual

/-- JSON value (fuel-indexed recursive-descent; the fuel passed by
`jsonLoads` always suffices on inputs that parse). -/
def parseJVal : ℕ → List Char → Option (PyVal × List Char)
  | 0, _ => Option.none
  | fuel + 1, l =>
    match skipWS l with
    | 'n' :: 'u' :: 'l' :: 'l' :: rest => some (PyVal.none, rest)
    | 't' :: 'r' :: 'u' :: 'e' :: rest => some (PyVal.bool true, rest)
    | 'f' :: 'a' :: 'l' :: 's' :: 'e' :: rest => some (PyVal.bool false, rest)
    | '"' :: rest =>
      match parseJStringAux rest [] with
      | some (s, r) => some (PyVal.str s, r)
      | Option.none => Option.none
    | '[' :: rest =>
      match skipWS rest with
      | ']' :: r => some (PyVal.list [], r)
      | l' => parseJArrItems fuel l' []
    | '{' :: rest =>
      match skipWS rest with
      | '}' :: r => some (PyVal.dict [], r)
      | l' => parseJObjItems fuel l' []
    | l' =>
      match parseJNumber l' with
      | some (q, r) => some (PyVal.num q, r)
      | Option.none => Option.none

def parseJArrItems : ℕ → List Char → List PyVal → Option (PyVal × List Char)
  | 0, _, _ => Option.none
  | fuel + 1, l, acc =>
    match parseJVal fuel l with
    | Option.none => Option.none
    | some (v, r) =>
      match skipWS r with
      | ',' :: r' => parseJArrItems fuel r' (v :: acc)
      | ']' :: r' => some (PyVal.list (v :: acc).reverse, r')
      | _ => Option.none

def parseJObjItems : ℕ → List Char →
    List (String × PyVal) → Option (PyVal × List Char)
  | 0, _, _ => Option.none
  | fuel + 1, l, acc =>
    match l with
    | '"' :: rest =>
      match parseJStringAux rest [] with
      | Option.none => Option.none
      | some (k, r) =>
        match skipWS r with
        | ':' :: r' =>
          match parseJVal fuel r' with
          | Option.none => Option.none
          | some (v, r'') =>
            match skipWS r'' with
            | ',' :: r3 =>
              match skipWS r3 with
              | l' => parseJObjItems fuel l' (insertKV acc k v)
            | '}' :: r3 => some (PyVal.dict (insertKV acc k v), r3)
            | _ => Option.none
        | _ => Option.none
    | _ => Option.none

end

/-- Python `json.loads` (strict JSON; the CPython extensions `NaN`,
`Infinity`, `-Infinity` denote non-finite floats outside the rational
embedding and are modelled as failures — nothing below exercises them).
`none` models `json.JSONDecodeError`. -/
def jsonLoads (s : String) : Option PyVal :=
  match parseJVal (s.length + 1) s.data with
  | some (v, rest) => if (skipWS rest).isEmpty then some v else Option.none
  | Option.none => Option.none

/-- `re.search(r"\{.*\}", raw, re.DOTALL)`: the leftmost match of this
greedy pattern runs from the first opening brace to the last closing brace
after it. -/
def braceSearch (s : String) : Option String :=
  match s.data.dropWhile (fun c => c ≠ '{') with
  | [] => Option.none
  | _ :: rest =>
    match rest.reverse.dropWhile (fun c => c ≠ '}') with
    | [] => Option.none
    | r => some (String.mk ('{' :: r.reverse))

/-! ## Insight resolver: pillar endpoints (main.py:1104-1197) -/

/-- Outcome of the remote generation attempt as seen by a pillar endpoint:
no configured client / API key, an exception from the transport, or a text
completion (`completion.choices[0].message.content or ""`). -/
inductive PillarOutcome where
  | notConfigured : PillarOutcome
  | error : PillarOutcome
  | content (s : String) : PillarOutcome

/-- Static fallback list of `post_environmental_insights`
(main.py:1115-1122). -/
def environmentalFallback : List String :=
  [ "Invoice-based energy and water baselines provide a stronger monthly trend signal than point-in-time ESG snapshots.",
    "Where peak demand is elevated versus average consumption, demand management and load shifting can reduce cost exposure.",
    "Water usage and water cost should be tracked together to identify efficiency gains and tariff risk.",
    "Carbon exposure can be estimated from electricity consumption using a consistent emission factor until verified site factors are available.",
    "Renewable share improvements (PV, wheeling, procurement) reduce both cost volatility and emissions intensity over time." ]

/-- Static fallback list of `post_social_insights` (main.py:1147-1154). -/
def socialFallback : List String :=
  [ "Employee engagement indicators suggest stable workforce sentiment; strengthen feedback loops and manager enablement to sustain momentum.",
    "Supplier diversity signals progress, with opportunities to expand local supplier development and verification of diverse spend.",
    "Community programme activity is visible; link investment to outcomes (jobs, skills, learner support) to strengthen impact reporting.",
    "Formalise safety and wellbeing leading indicators to complement lagging incident metrics.",
    "Strengthen human rights screening and grievance channels across high-risk suppliers and sites." ]

/-- Static fallback list of `post_governance_insights` (main.py:1175-1182). -/
def governanceFallback : List String :=
  [ "Governance controls appear stable with consistent assurance cycles; strengthen evidence trails to improve auditability of ESG KPIs.",
    "Board oversight structures support accountability; align board skills and committee mandates to material ESG risks and strategy.",
    "Transparency practices can be improved through clearer KPI definitions, controls and periodic disclosure cadence.",
    "Ethics and compliance monitoring should prioritize third-party risk and supplier adherence to codes of conduct.",
    "Risk coverage can be strengthened through formal risk registers, control testing and documented remediation tracking." ]

/-- The try/except resolution shared verbatim by the three pillar endpoints:
when unconfigured use the static fallback with `used_ai = False`; when the
generator raises (transport error, or the `ValueError` it raises itself on
an empty cleaned result) catch and fall back with `used_ai = False`;
otherwise return the cleaned non-empty list with `used_ai = True`.
Result: `(insights, live)` of the `PillarInsightsResponse`. -/
def resolveInsights (fallback : List String) (o : PillarOutcome) :
    List String × Bool :=
  match o with
  | PillarOutcome.notConfigured => (fallback, false)
  | PillarOutcome.error => (fallback, false)
  | PillarOutcome.content s =>
    let out := _clean_lines_to_list s
    if out.isEmpty then (fallback, false) else (out, true)

/-- `post_environmental_insights` (main.py:1104-1141), restricted to the
`(insights, live)` pair of its response. -/
def post_environmental_insights (o : PillarOutcome) : List String × Bool :=
  resolveInsights environmentalFallback o

/-- `post_social_insights` (main.py:1143-1169), restricted to the
`(insights, live)` pair of its response. -/
def post_social_insights (o : PillarOutcome) : List String × Bool :=
  resolveInsights socialFallback o

/-- `post_governance_insights` (main.py:1171-1197), restricted to the
`(insights, live)` pair of its response. -/
def post_governance_insights (o : PillarOutcome) : List String × Bool :=
  resolveInsights governanceFallback o

/-! ## Mini report (main.py:557-630, 899-940, 1212-1243) -/

/-- The four string-valued pieces of the mini report. -/
structure MiniData where
  baseline : String
  benchmark : String
  performance_vs_benchmark : String
  ai_recommendations : List String
deriving Repr, DecidableEq

/-- Python `dict.get`: first (unique) matching key. -/
def dget (kvs : List (String × PyVal)) (k : String) : Option PyVal :=
  (kvs.find? (fun p => p.1 = k)).map (fun p => p.2)

/-- The field extraction ending `generate_ai_mini_report`
(main.py:611-630).  When the parsed value is not a dict, `.get` raises
`AttributeError` escaping the function: modelled as `none`.  A non-list
`ai_recommendations` value is replaced by `[]`; each recommendation is
marker-stripped and dropped when empty; at most six are kept. -/
def miniFromData : PyVal → Option MiniData
  | PyVal.dict kvs =>
    let getS := fun (k : String) => pyStrip (pyStr ((dget kvs k).getD (PyVal.str "")))
    let recs :=
      match (dget kvs "ai_recommendations").getD (PyVal.list []) with
      | PyVal.list xs => xs
      | _ => []
    let cleaned := (recs.map (fun r => stripMarkers (pyStr r))).filter (fun s => s ≠ "")
    some { baseline := getS "baseline"
           benchmark := getS "benchmark"
           performance_vs_benchmark := getS "performance_vs_benchmark"
           ai_recommendations := cleaned.take 6 }
  | _ => Option.none

/-- Result of one completion call: transport exception, or the returned
text (`completion.choices[0].message.content or "{}"` applies the `or`
afterwards). -/
inductive CallRes where
  | err : CallRes
  | ok (s : String) : CallRes

/-- `generate_ai_mini_report` (main.py:557-630), configured-client path,
with the two completion calls supplied by the environment (`c1` the
structured-output attempt, `c2` the free-form retry made only when the
first attempt throws or its text fails `json.loads`).  A `none` result
models an exception escaping to the endpoint handler. -/
def generate_ai_mini_report (c1 c2 : CallRes) : Option MiniData :=
  let firstData : Option PyVal :=
    match c1 with
    | CallRes.ok s => jsonLoads (if s = "" then "{}" else s)
    | CallRes.err => Option.none
  match firstData with
  | some data => miniFromData data
  | Option.none =>
    match c2 with
    | CallRes.err => Option.none
    | CallRes.ok s =>
      let raw := if s = "" then "{}" else s
      match braceSearch raw with
      | some sub =>
        match jsonLoads sub with
        | some data => miniFromData data
        | Option.none => Option.none
      | Option.none => miniFromData (PyVal.dict [])

/-- The payload dict handed to the mini-report fallback: the `metrics` and
`invoice_baseline` entries it reads (`payload.get(k) or {}` turns a missing
or falsy entry into the empty dict). -/
structure MiniPayload where
  metrics : Option (List (String × PyVal)) := Option.none
  invoice_baseline : Option (List (String × PyVal)) := Option.none

/-- The recognized renewable-share key spellings, in probe order
(main.py:904). -/
def renewKeys : List String :=
  ["renewableEnergy", "renewable_energy", "renewableEnergyShare", "renewable_energy_share"]

/-- The `for k in [...]: if k in metrics: renew = metrics.get(k); break`
loop: value under the first recognized spelling present, if any. -/
def firstRenew (metrics : List (String × PyVal)) : Option PyVal :=
  match renewKeys.find? (fun k => (dget metrics k).isSome) with
  | some k => dget metrics k
  | Option.none => Option.none

/-- `r = float(str(renew).replace("%", "").strip()) if renew is not None
else None`, with the `except: pass` swallowing a failing conversion
(main.py:927-933): `none` both when no recognized key was found, when the
found value is Python `None`, and when the conversion raises. -/
def renewParse : Option PyVal → Option ℚ
  | Option.none => Option.none
  | some PyVal.none => Option.none
  | some v => pyFloat (pyStrip (removeAll '%' (pyStr v)))

/-- The four default recommendations of `_mini_report_fallback`
(main.py:920-925). -/
def miniDefaultRecs : List String :=
  [ "Confirm monthly baselines from invoices (energy kWh, water m³, charges) and lock the reporting boundary (sites/meters).",
    "Implement demand management and efficiency actions at peak-consumption sites (load shifting, HVAC optimisation, VSDs).",
    "Improve water efficiency through leak detection, metering, and reuse where feasible.",
    "Start a renewable pathway: on-site solar PV feasibility + green procurement options." ]

/-- The renewable-prioritization recommendation inserted at the front when
the parsed share is below 20 (main.py:931). -/
def miniRenewRec : String :=
  "Prioritise increasing renewable share toward 20–25% through solar PV and/or wheeling where available."

/-- The default performance-vs-benchmark narrative (main.py:915-918,
two adjacent Python string literals concatenated). -/
def miniDefaultPerf : String :=
  "Performance vs benchmark cannot be precisely assessed without sector and revenue/production denominators, but invoice-based energy/water baselines can be used to track trend and intensity once denominators are provided."

/-- The below-threshold narrative (main.py:930). -/
def miniBelowPerf (r : ℚ) : String :=
  "Renewable share appears below a 20% indicative peer threshold (current: " ++ fmt1 r ++ "%)."

/-- `_mini_report_fallback` (main.py:899-940): fixed baseline / benchmark /
performance texts and four recommendations; when the first recognized
renewable-share entry parses (percent sign and whitespace stripped) to a
value below 20, the performance text is customized and a prioritization
recommendation is prepended; a failing parse is swallowed (`except: pass`). -/
def _mini_report_fallback (p : MiniPayload) : MiniData :=
  let metrics := p.metrics.getD []
  let invoice := p.invoice_baseline.getD []
  let renew := firstRenew metrics
  let keysJoin := String.intercalate ", " ((invoice.map (fun kv => kv.1)).take 8)
  let baseline :=
    "Baseline compiled from available ESG snapshot and invoice baseline. Invoice baseline keys available: "
      ++ (if keysJoin = "" then "none" else keysJoin) ++ "."
  let benchmark :=
    "Typical peer band (indicative): renewable share 20–35%, steady reductions in energy and water intensity over a 3–5 year horizon."
  match renewParse renew with
  | some rv =>
    if rv < 20 then
      { baseline := baseline
        benchmark := benchmark
        performance_vs_benchmark := miniBelowPerf rv
        ai_recommendations := miniRenewRec :: miniDefaultRecs }
    else
      { baseline := baseline
        benchmark := benchmark
        performance_vs_benchmark := miniDefaultPerf
        ai_recommendations := miniDefaultRecs }
  | Option.none =>
    { baseline := baseline
      benchmark := benchmark
      performance_vs_benchmark := miniDefaultPerf
      ai_recommendations := miniDefaultRecs }

/-- Outcome of the mini-report generation environment: unconfigured client,
or the results of the (up to) two completion calls. -/
inductive MiniOutcome where
  | notConfigured : MiniOutcome
  | calls (c1 c2 : CallRes) : MiniOutcome

/-- `post_ai_mini_report` (main.py:1212-1243), restricted to the
`(report, live)` pair of its response (the response constructor re-reads
the four dict fields, an identity on `MiniData`). -/
def post_ai_mini_report (p : MiniPayload) (o : MiniOutcome) : MiniData × Bool :=
  match o with
  | MiniOutcome.notConfigured => (_mini_report_fallback p, false)
  | MiniOutcome.calls c1 c2 =>
    match generate_ai_mini_report c1 c2 with
    | some report => (report, true)
    | Option.none => (_mini_report_fallback p, false)

/-! ## Invoice extractor (`extract_invoice_data_from_pdf`, main.py:656-796)

The PDF text extractor (pypdf) and the Python `re` engine searching the
extracted text are external collaborators (spec §6); the environment below
carries their results for one call, together with the wall clock:

* `decodedText` — the page-concatenated text, `none` when `pypdf` is
  missing or `PdfReader`/`extract_text` raises (which routes to the total
  fallback);
* `companyFromText` — the result of the inner company-name `try` block
  (header label patterns, then the first-lines scan; `None` both when no
  pattern matched and when that block raised);
* the four `…Capture` fields — `group(1)` of the corresponding
  `re.search`, `none` when the search found no match (for the water-cost
  field: neither of its two anchor orders). -/
structure ExtractEnv where
  decodedText : Option String := Option.none
  companyFromText : Option String := Option.none
  energyCapture : Option String := Option.none
  waterCapture : Option String := Option.none
  chargesCapture : Option String := Option.none
  waterCostCapture : Option String := Option.none
  /-- `datetime.now().strftime("%Y-%m-%d")` -/
  dateStr : String := ""
  /-- `datetime.now().strftime("%Y%m%d")` -/
  dateCompact : String := ""
  /-- `datetime.now().strftime("%Y%m%d-%H%M%S")` -/
  timeStamp : String := ""
  /-- `(datetime.now() + timedelta(days=30)).strftime("%Y-%m-%d")` -/
  dueDateStr : String := ""
  /-- the calendar year of the wall clock (used to state the history-label
  claim; the code never reads it when building labels) -/
  year : ℕ := 2024
  /-- what `now_iso()` returns during the final `_normalize_invoice` -/
  nowIso : String := ""

/-- Python `str.title()` over ASCII: uppercase a letter starting a run of
cased characters, lowercase the rest. -/
def titleCase (s : String) : String :=
  String.mk ((s.data.foldl
    (fun (st : List Char × Bool) c =>
      if c.isAlpha then
        ((if st.2 then c.toLower else c.toUpper) :: st.1, true)
      else (c :: st.1, false))
    ([], false)).1.reverse)

/-- The filename-derived company fallback (main.py:694-696):
strip a trailing `.pdf` (case-insensitive), turn `_`/`-` into spaces,
title-case. -/
def companyFromFilename (filename : String) : String :=
  let base :=
    if ['.', 'p', 'd', 'f'].isSuffixOf (filename.data.map Char.toLower) then
      String.mk (filename.data.take (filename.data.length - 4))
    else filename
  titleCase (String.mk (base.data.map (fun c => if c = '_' || c = '-' then ' ' else c)))

/-- One numeric extraction (main.py:698-718):
`float(match.group(1).replace(",", "")) if match else fallback`.
A `none` result models `float` raising on the captured text (impossible for
captures the real regex engine produces, but the model keeps the exception
path: it routes to the total fallback). -/
def captureFloat (cap : Option String) (fallback : ℚ) : Option ℚ :=
  match cap with
  | some g => pyFloat (removeAll ',' g)
  | Option.none => some fallback

def monthNames : List String := ["Jan", "Feb", "Mar", "Apr", "May", "Jun"]

/-- The synthetic history entry for month index `i` (main.py:729-747):
variance `0.9 + i * 0.05` applied to each sixth of the aggregates; carbon
from the (unrounded) month energy; the label hardcodes the year `2024`. -/
def synthMonthRow (energy_kwh charges water_m3 water_cost : ℚ)
    (i : ℕ) (m : String) : MonthRow :=
  let variance : ℚ := 9/10 + i * (5/100)
  let month_energy := energy_kwh / 6 * variance
  let month_charges := charges / 6 * variance
  let month_water := water_m3 / 6 * variance
  let month_water_cost := water_cost / 6 * variance
  let month_carbon := month_energy * (99/100) / 1000
  { month_label := some (PyVal.str (m ++ " 2024"))
    energyKWh := some (PyVal.num (pyRound2 month_energy))
    total_current_charges := some (PyVal.num (pyRound2 month_charges))
    total_amount_due := some (PyVal.num (pyRound2 month_charges))
    carbonTco2e := some (PyVal.num (pyRound2 month_carbon))
    water_m3 := some (PyVal.num (pyRound2 month_water))
    water_cost := some (PyVal.num (pyRound2 month_water_cost)) }

/-- Company-name resolution (main.py:666-696): the inner-try result when it
produced a non-falsy string (`if not company_name`), else the
filename-derived fallback. -/
def extractCompanyName (env : ExtractEnv) (filename : String) : String :=
  match env.companyFromText with
  | some c => if c = "" then companyFromFilename filename else c
  | Option.none => companyFromFilename filename

/-- The record built on the successful path (main.py:749-765) from the four
extracted aggregates, before normalization. -/
def successRecord (env : ExtractEnv) (filename : String)
    (energy_kwh charges water_m3 water_cost : ℚ) : Invoice :=
  { filename := some (PyVal.str filename)
    company_name := some (PyVal.str (extractCompanyName env filename))
    account_number := some (PyVal.str ("ACC-" ++ env.dateCompact))
    tax_invoice_number := some (PyVal.str ("INV-" ++ env.timeStamp))
    invoice_date := some (PyVal.str env.dateStr)
    due_date := some (PyVal.str env.dueDateStr)
    total_current_charges := some (PyVal.num (pyRound2 charges))
    total_amount_due := some (PyVal.num (pyRound2 charges))
    total_energy_kwh := some (PyVal.num (pyRound2 energy_kwh))
    water_usage := some (PyVal.num (pyRound2 water_m3))
    water_cost := some (PyVal.num (pyRound2 water_cost))
    categories := some (PyVal.list [PyVal.str "Industrial", PyVal.str "Manufacturing"])
    sixMonthHistory := some (HistVal.list (monthNames.enum.map
      (fun im => synthMonthRow energy_kwh charges water_m3 water_cost im.1 im.2))) }

/-- The successful extraction path (main.py:698-765): the four regex-based
numeric extractions, then the record; `none` when a `float` conversion
raises inside the `try`. -/
def extractBody (env : ExtractEnv) (filename : String) : Option Invoice := do
  let energy_kwh ← captureFloat env.energyCapture 125000
  let water_m3 ← captureFloat env.waterCapture 12500
  let charges ← captureFloat env.chargesCapture (370001/2)
  let water_cost ← captureFloat env.waterCostCapture 75000
  pure (successRecord env filename energy_kwh charges water_m3 water_cost)

/-- One row of the canned total-fallback history (main.py:783-794). -/
def fallbackMonthRow (m : String) : MonthRow :=
  { month_label := some (PyVal.str (m ++ " 2024"))
    energyKWh := some (PyVal.num (1666667/100))
    total_current_charges := some (PyVal.num 25000)
    total_amount_due := some (PyVal.num 25000)
    carbonTco2e := some (PyVal.num (33/2))
    water_m3 := some (PyVal.num (166667/100))
    water_cost := some (PyVal.num (833333/100)) }

/-- The canned total-fallback record (main.py:769-796), before
normalization. -/
def totalFallbackRecord (env : ExtractEnv) (filename : String) : Invoice :=
  { filename := some (PyVal.str filename)
    company_name := some (PyVal.str "Extracted Company")
    account_number := some (PyVal.str "ACC-FALLBACK")
    tax_invoice_number := some (PyVal.str "INV-FALLBACK")
    invoice_date := some (PyVal.str env.dateStr)
    due_date := some (PyVal.str env.dueDateStr)
    total_current_charges := some (PyVal.num 150000)
    total_amount_due := some (PyVal.num 150000)
    total_energy_kwh := some (PyVal.num 100000)
    water_usage := some (PyVal.num 10000)
    water_cost := some (PyVal.num 50000)
    categories := some (PyVal.list [PyVal.str "Extracted"])
    sixMonthHistory := some (HistVal.list (monthNames.map fallbackMonthRow)) }

/-- `extract_invoice_data_from_pdf` (main.py:656-796): on a decoded text,
build the record from the regex captures and normalize it; when decoding
raised (or any `float` inside the `try` raised), normalize the canned
total-fallback record instead.  Totality of this function is the
never-raises guarantee of the code (both exits pass through the outer
`except Exception` or return normally). -/
def extract_invoice_data_from_pdf (env : ExtractEnv) (filename : String) : Invoice :=
  match env.decodedText with
  | some _ =>
    match extractBody env filename with
    | some inv => _normalize_invoice env.nowIso inv
    | Option.none => _normalize_invoice env.nowIso (totalFallbackRecord env filename)
  | Option.none => _normalize_invoice env.nowIso (totalFallbackRecord env filename)

/-! ## Bulk upload (`bulk_upload_invoices`, main.py:1264-1289) -/

/-- One file of a bulk batch: its filename and the outcome of
`await f.read()` — the bytes' extraction environment on success, the
exception text on failure. -/
structure UploadFile where
  filename : String
  readResult : Except String ExtractEnv

/-- The response model fields the claims are about. -/
structure UploadResponse where
  success : Bool
  uploaded_count : ℕ
  errors : List String
  invoices : List Invoice

/-- The per-file loop of `bulk_upload_invoices`: read, extract, append;
an exception is recorded as `f"{f.filename}: {str(e)}"` and the loop
continues with the next file. -/
def bulkLoop : List UploadFile → List Invoice → List String →
    List Invoice × List String
  | [], invs, errs => (invs, errs)
  | f :: rest, invs, errs =>
    match f.readResult with
    | Except.ok env =>
      bulkLoop rest (invs ++ [extract_invoice_data_from_pdf env f.filename]) errs
    | Except.error e =>
      bulkLoop rest invs (errs ++ [f.filename ++ ": " ++ e])

/-- `bulk_upload_invoices` (main.py:1264-1289): sequential loop, then
`success = (len(errors) == 0)`, `uploaded_count = len(invoices)`. -/
def bulk_upload_invoices (files : List UploadFile) : UploadResponse :=
  let (invs, errs) := bulkLoop files [] []
  { success := decide (errs = [])
    uploaded_count := invs.length
    errors := errs
    invoices := invs }

/-! ## Spec-side definitions used to state the claims -/

/-- The Invoice Record numeric invariant on one optional field: when the
key is present, its value is a float or the explicit absent marker
(`None`) — never a string or malformed token. -/
def NumFieldOk (o : Option PyVal) : Prop :=
  ∀ v, o = some v → (∃ q, v = PyVal.num q) ∨ v = PyVal.none

/-- The invariant on the designated numeric fields of a history entry. -/
def RowOk (r : MonthRow) : Prop :=
  NumFieldOk r.energyKWh ∧ NumFieldOk r.total_current_charges
  ∧ NumFieldOk r.total_amount_due ∧ NumFieldOk r.maximum_demand_kva
  ∧ NumFieldOk r.carbonTco2e ∧ NumFieldOk r.water_m3 ∧ NumFieldOk r.water_cost

/-- The Invoice Record invariant (spec §3): every declared top-level
numeric field and every designated numeric field of every history entry is
a float or explicitly absent. -/
def InvoiceNumInvariant (inv : Invoice) : Prop :=
  NumFieldOk inv.total_current_charges ∧ NumFieldOk inv.total_amount_due
  ∧ NumFieldOk inv.total_energy_kwh ∧ NumFieldOk inv.water_usage
  ∧ NumFieldOk inv.water_cost
  ∧ ∀ rows, inv.sixMonthHistory = some (HistVal.list rows) → ∀ r ∈ rows, RowOk r

/-- Well-formedness of an extraction environment: each present regex
capture has the semantic shape its pattern guarantees.  The energy and
water patterns capture `\d{1,3}(?:,\d{3})*|\d+` (a natural number once the
commas are gone); the two money patterns additionally allow `(?:\.\d{2})?`
(at most two decimals). -/
structure EnvWF (env : ExtractEnv) : Prop where
  energy : ∀ g, env.energyCapture = some g →
    ∃ n : ℕ, pyFloat (removeAll ',' g) = some (n : ℚ)
  water : ∀ g, env.waterCapture = some g →
    ∃ n : ℕ, pyFloat (removeAll ',' g) = some (n : ℚ)
  charges : ∀ g, env.chargesCapture = some g →
    ∃ q : ℚ, pyFloat (removeAll ',' g) = some q ∧ (q * 100).den = 1
  water_cost : ∀ g, env.waterCostCapture = some g →
    ∃ q : ℚ, pyFloat (removeAll ',' g) = some q ∧ (q * 100).den = 1

/-- The per-month record claim C5 describes, labelled with the given
calendar year — written from the claim's words, to be compared with the
history `extract_invoice_data_from_pdf` actually builds. -/
def claimMonthRow (E C W WC : ℚ) (year : ℕ) (i : ℕ) (m : String) : MonthRow :=
  let factor : ℚ := 9/10 + i * (5/100)
  { month_label := some (PyVal.str (m ++ " " ++ toString year))
    energyKWh := some (PyVal.num (pyRound2 (E / 6 * factor)))
    total_current_charges := some (PyVal.num (pyRound2 (C / 6 * factor)))
    total_amount_due := some (PyVal.num (pyRound2 (C / 6 * factor)))
    carbonTco2e := some (PyVal.num (pyRound2 (E / 6 * factor * (99/100) / 1000)))
    water_m3 := some (PyVal.num (pyRound2 (W / 6 * factor)))
    water_cost := some (PyVal.num (pyRound2 (WC / 6 * factor))) }

/-- The six-month history claim C5 describes (month labels Jan..Jun of the
given year, aggregates divided by six under the linear variance factor). -/
def claimHistory (E C W WC : ℚ) (year : ℕ) : List MonthRow :=
  monthNames.enum.map (fun im => claimMonthRow E C W WC year im.1 im.2)

/-- Observation: the month labels of a history value. -/
def rowLabel (r : MonthRow) : String :=
  match r.month_label with
  | some (PyVal.str s) => s
  | _ => ""

def histLabels : Option HistVal → List String
  | some (HistVal.list rows) => rows.map rowLabel
  | _ => []

/-- Observation: string content of an optional field. -/
def strVal : Option PyVal → Option String
  | some (PyVal.str s) => some s
  | _ => Option.none

/-- Observation: numeric content of an optional field. -/
def numVal : Option PyVal → Option ℚ
  | some (PyVal.num q) => some q
  | _ => Option.none

/-- A wall clock / environment with a failing PDF decode. -/
def envDecodeFail : ExtractEnv :=
  { dateStr := "2026-10-12", dateCompact := "20261012"
    timeStamp := "20261012-120000", dueDateStr := "2026-11-11"
    year := 2026, nowIso := "2026-10-12T12:00:00Z" }

/-- An environment whose decode succeeded but where no numeric pattern
matched (all extractions take their hardcoded fallback constants). -/
def envPlain : ExtractEnv :=
  { decodedText := some "Monthly statement"
    dateStr := "2026-10-12", dateCompact := "20261012"
    timeStamp := "20261012-120000", dueDateStr := "2026-11-11"
    year := 2026, nowIso := "2026-10-12T12:00:00Z" }

/-- An environment with comma-grouped captures for energy and charges. -/
def envCaptures : ExtractEnv :=
  { decodedText := some "Usage 1,250 kWh at R 1,850.75"
    energyCapture := some "1,250"
    chargesCapture := some "1,850.75"
    dateStr := "2026-10-12", dateCompact := "20261012"
    timeStamp := "20261012-120000", dueDateStr := "2026-11-11"
    year := 2026, nowIso := "2026-10-12T12:00:00Z" }

/-- The metrics payload of the C8 counterexample: the first recognized
renewable key holds a non-numeric value, a later recognized key holds a
parseable value below 20. -/
def miniPayloadC8 : MiniPayload :=
  { metrics := some [("renewableEnergy", PyVal.str "abc"),
                     ("renewable_energy", PyVal.str "15")] }

/-- The scenario payload of claim C8: `"renewableEnergy": "15%"`. -/
def miniPayloadRenew15 : MiniPayload :=
  { metrics := some [("renewableEnergy", PyVal.str "15%")] }

/-- The metrics of a payload with every recognized renewable-share key
spelling removed. -/
def dropRenewKeys (p : MiniPayload) : MiniPayload :=
  { p with metrics := some ((p.metrics.getD []).filter
      (fun kv => decide (kv.1 ∉ renewKeys))) }

/-- The all-empty mini report produced when the structured attempt parses
to an empty JSON object. -/
def emptyMiniData : MiniData :=
  { baseline := "", benchmark := "", performance_vs_benchmark := ""
    ai_recommendations := [] }

/-! ## Helper lemmas -/

theorem floatField_shape (v : PyVal) :
    (∃ q, floatField v = PyVal.num q) ∨ floatField v = PyVal.none := by
  unfold floatField
  cases _safe_float v with
  | none => exact Or.inr rfl
  | some q => exact Or.inl ⟨q, rfl⟩

theorem safe_float_floatField (v : PyVal) :
    _safe_float (floatField v) = _safe_float v := by
  unfold floatField
  cases h : _safe_float v with
  | none => rfl
  | some q => rfl

theorem floatField_idem (v : PyVal) : floatField (floatField v) = floatField v := by
  show (match _safe_float (floatField v) with
        | some q => PyVal.num q
        | Option.none => PyVal.none) = floatField v
  rw [safe_float_floatField]
  rfl

theorem normNum_idem (x : Option PyVal) : normNum (normNum x) = normNum x := by
  cases x with
  | none => rfl
  | some v => simp [normNum, floatField_idem]

theorem normNum_ok (x : Option PyVal) : NumFieldOk (normNum x) := by
  cases x with
  | none => intro v h; cases h
  | some w =>
    intro v h
    simp only [normNum, Option.some.injEq] at h
    subst h
    exact floatField_shape w

theorem normalizeRow_idem (r : MonthRow) :
    normalizeRow (normalizeRow r) = normalizeRow r := by
  cases r
  simp [normalizeRow, normNum_idem]

theorem map_normalizeRow_idem (rows : List MonthRow) :
    (rows.map normalizeRow).map normalizeRow = rows.map normalizeRow := by
  induction rows with
  | nil => rfl
  | cons r rs ih => simp [normalizeRow_idem, ih]

theorem normalizeRow_ok (r : MonthRow) : RowOk (normalizeRow r) := by
  cases r
  exact ⟨normNum_ok _, normNum_ok _, normNum_ok _, normNum_ok _,
         normNum_ok _, normNum_ok _, normNum_ok _⟩

theorem normalize_invariant (now : String) (inv : Invoice) :
    InvoiceNumInvariant (_normalize_invoice now inv) := by
  refine ⟨normNum_ok _, normNum_ok _, normNum_ok _, normNum_ok _, normNum_ok _, ?_⟩
  intro rows h
  unfold _normalize_invoice at h
  simp only at h
  cases hh : inv.sixMonthHistory with
  | none => rw [hh] at h; cases h
  | some hv =>
    cases hv with
    | list rs =>
      rw [hh] at h
      simp only [Option.some.injEq, HistVal.list.injEq] at h
      subst h
      intro r hr
      obtain ⟨r0, _, rfl⟩ := List.mem_map.mp hr
      exact normalizeRow_ok r0
    | other v => rw [hh] at h; cases h

theorem normalize_except_updated (now now2 : String) (inv : Invoice) :
    _normalize_invoice now2 (_normalize_invoice now inv)
      = { _normalize_invoice now inv with updated_at := some (PyVal.str now2) } := by
  cases inv with
  | mk f cn an tin idt dd tcc tad tek wu wc cat hist ca ua =>
    simp only [_normalize_invoice, normNum_idem, Invoice.mk.injEq]
    refine ⟨trivial, trivial, trivial, trivial, trivial, trivial, trivial, trivial,
      trivial, trivial, trivial, trivial, ?_, ?_, trivial⟩
    · cases hist with
      | none => rfl
      | some hv =>
        cases hv with
        | list rows => simp only [map_normalizeRow_idem]
        | other v => rfl
    · cases ca <;> rfl

/-! ## Claims -/

/-- C2: `_safe_float` never raises (it is a total function of the embedded
value); `None` maps to the no-value marker; a string that, after trimming
whitespace and removing commas, parses as a float maps to the equivalent
float (e.g. `"1,234,567.89"` to `1234567.89`); any value whose conversion
fails — a garbage string, or a non-convertible object such as a list or a
dict — maps to the no-value marker. -/
theorem claim_C2_safe_float :
    _safe_float PyVal.none = Option.none
    ∧ (∀ q : ℚ, _safe_float (PyVal.num q) = some q)
    ∧ (∀ s q, pyFloat (pyStrip (removeAll ',' s)) = some q →
        _safe_float (PyVal.str s) = some q)
    ∧ (∀ s, pyFloat (pyStrip (removeAll ',' s)) = Option.none →
        _safe_float (PyVal.str s) = Option.none)
    ∧ _safe_float (PyVal.str "1,234,567.89") = some (123456789 / 100)
    ∧ _safe_float (PyVal.str "garbage") = Option.none
    ∧ (∀ xs, _safe_float (PyVal.list xs) = Option.none)
    ∧ (∀ kvs, _safe_float (PyVal.dict kvs) = Option.none) := by
  refine ⟨rfl, fun q => rfl, fun s q h => h, fun s h => h, ?_, ?_, fun xs => rfl,
    fun kvs => rfl⟩
  · show some (assembleFloat false ['1','2','3','4','5','6','7'] ['8','9'] 0)
        = some (123456789 / 100)
    have hd : digitsVal ['1','2','3','4','5','6','7','8','9'] = 123456789 := by decide
    norm_num [assembleFloat, hd, (by decide : Int.toNat 2 = 2)]
  · decide

/-- Witness for C2: the string-conversion clause applied at `" 7 "`. -/
theorem claim_C2_safe_float_witness :
    _safe_float (PyVal.str " 7 ") = some 7 :=
  claim_C2_safe_float.2.2.1 " 7 " 7 (by decide)

/-- C3: `_normalize_invoice` is idempotent on every field except
`updated_at` (a second pass under any clock only rewrites `updated_at`;
under a fixed clock the passes agree on everything); `updated_at` is
rewritten on every call; a `created_at` already present is never
overwritten. -/
theorem claim_C3_normalize_idem :
    (∀ now inv, _normalize_invoice now (_normalize_invoice now inv)
        = _normalize_invoice now inv)
    ∧ (∀ now now2 inv, _normalize_invoice now2 (_normalize_invoice now inv)
        = { _normalize_invoice now inv with updated_at := some (PyVal.str now2) })
    ∧ (∀ now inv, (_normalize_invoice now inv).updated_at = some (PyVal.str now))
    ∧ (∀ now inv c, inv.created_at = some c →
        (_normalize_invoice now inv).created_at = some c) := by
  refine ⟨?_, normalize_except_updated, fun now inv => rfl, ?_⟩
  · intro now inv
    rw [normalize_except_updated]
    rfl
  · intro now inv c h
    unfold _normalize_invoice
    simp only [h]

/-- Witness for C3: the `created_at`-preservation clause applied at a
record created at `"2024-01-01T00:00:00Z"` and re-normalized later. -/
theorem claim_C3_normalize_idem_witness :
    (_normalize_invoice "2026-10-12T12:00:00Z"
        { created_at := some (PyVal.str "2024-01-01T00:00:00Z") }).created_at
      = some (PyVal.str "2024-01-01T00:00:00Z") :=
  claim_C3_normalize_idem.2.2.2 "2026-10-12T12:00:00Z"
    { created_at := some (PyVal.str "2024-01-01T00:00:00Z") }
    (PyVal.str "2024-01-01T00:00:00Z") rfl

/-- C1: `extract_invoice_data_from_pdf` never raises — it is a total
function of the environment (every input byte sequence, including empty or
corrupted bytes, appears as some environment: a failing decode is
`decodedText = none`) — and its result always satisfies the Invoice Record
numeric invariant: every declared top-level numeric field and every
designated numeric field of every history entry is a float or the explicit
absent marker, never a string or malformed token. -/
theorem claim_C1_extract_invariant (env : ExtractEnv) (filename : String) :
    InvoiceNumInvariant (extract_invoice_data_from_pdf env filename) := by
  unfold extract_invoice_data_from_pdf
  cases env.decodedText with
  | none => exact normalize_invariant _ _
  | some t =>
    cases extractBody env filename with
    | none => exact normalize_invariant _ _
    | some inv => exact normalize_invariant _ _

theorem head?_dropWhile_false {p : Char → Bool} :
    ∀ (l : List Char) (c : Char), (l.dropWhile p).head? = some c → p c = false := by
  intro l
  induction l with
  | nil => intro c h; cases h
  | cons a t ih =>
    intro c h
    cases hpa : p a with
    | true => rw [List.dropWhile_cons_of_pos hpa] at h; exact ih c h
    | false =>
      rw [List.dropWhile_cons_of_neg (by simp [hpa])] at h
      rw [List.head?_cons, Option.some.injEq] at h
      rwa [← h]

theorem mem_dedupNonempty {ln : String} :
    ∀ (xs seen : List String), ln ∈ dedupNonempty xs seen → ln ≠ "" ∧ ln ∈ xs := by
  intro xs
  induction xs with
  | nil => intro seen h; cases h
  | cons x rest ih =>
    intro seen h
    by_cases hc : x ≠ "" ∧ x ∉ seen
    · rw [dedupNonempty, if_pos hc] at h
      rcases List.mem_cons.mp h with h1 | h2
      · subst h1; exact ⟨hc.1, List.mem_cons_self _ _⟩
      · obtain ⟨hne, hmem⟩ := ih _ h2
        exact ⟨hne, List.mem_cons_of_mem _ hmem⟩
    · rw [dedupNonempty, if_neg hc] at h
      obtain ⟨hne, hmem⟩ := ih _ h
      exact ⟨hne, List.mem_cons_of_mem _ hmem⟩

theorem head?_dropTrailing {p : Char → Bool} (L : List Char) (c : Char)
    (h : ((L.reverse.dropWhile p).reverse).head? = some c) : L.head? = some c := by
  obtain ⟨t, ht⟩ := List.dropWhile_suffix (l := L.reverse) p
  have hL : L = (L.reverse.dropWhile p).reverse ++ t.reverse := by
    have h2 := congrArg List.reverse ht
    rw [List.reverse_append, List.reverse_reverse] at h2
    exact h2.symm
  rw [hL]
  cases hD : (L.reverse.dropWhile p).reverse with
  | nil => rw [hD] at h; cases h
  | cons a u =>
    rw [hD] at h
    rw [List.cons_append, List.head?_cons]
    rwa [List.head?_cons] at h

theorem stripMarkers_head (s : String) (c : Char)
    (h : (stripMarkers s).data.head? = some c) : markerClass c = false := by
  unfold stripMarkers pyStrip at h
  simp only at h
  have h1 : (s.data.dropWhile markerClass).dropWhile pyWS
      = s.data.dropWhile markerClass := by
    cases hcase : s.data.dropWhile markerClass with
    | nil => rfl
    | cons a t =>
      have ha : markerClass a = false := by
        apply head?_dropWhile_false s.data
        rw [hcase, List.head?_cons]
      have hpa : pyWS a = false := by
        by_contra hw
        rw [Bool.not_eq_false] at hw
        rw [markerClass, hw] at ha
        simp at ha
      exact List.dropWhile_cons_of_neg (by simp [hpa])
  rw [h1] at h
  have h2 := head?_dropTrailing (p := pyWS) (s.data.dropWhile markerClass) c h
  exact head?_dropWhile_false s.data c h2

theorem clean_lines_mem {text ln : String}
    (h : ln ∈ _clean_lines_to_list text) :
    ln ≠ "" ∧ ∃ l, ln = stripMarkers l := by
  unfold _clean_lines_to_list at h
  obtain ⟨hne, hmem⟩ := mem_dedupNonempty _ _ h
  obtain ⟨l, _, hl⟩ := List.mem_map.mp hmem
  exact ⟨hne, l, hl.symm⟩

/-- C7: on the three documented lines, the leading markers are stripped and
the duplicate removed, leaving exactly the two insights in first-seen
order; and cleaning never emits an empty line, on any input. -/
theorem claim_C7_clean_lines :
    _clean_lines_to_list "- Insight one\n2. Insight two\n* Insight one"
      = ["Insight one", "Insight two"]
    ∧ ∀ text ln, ln ∈ _clean_lines_to_list text → ln ≠ "" := by
  constructor
  · decide
  · intro text ln h
    exact (clean_lines_mem h).1

/-- Witness for C7: the no-empty-line clause applied to a concrete run. -/
theorem claim_C7_clean_lines_witness : ("alpha" : String) ≠ "" :=
  claim_C7_clean_lines.2 "alpha" "alpha" (by decide)

/-- C10 (implicit): the cleaning strips the whole maximal leading run of
marker-class characters even when they are genuine content — `"2025
emissions fell 3%"` loses its leading year — and consequently every output
line is non-empty and starts with a character outside the class
hyphen/asterisk/digit/period/closing-parenthesis/whitespace. -/
theorem claim_C10_strip_run :
    _clean_lines_to_list "2025 emissions fell 3%" = ["emissions fell 3%"]
    ∧ ∀ text ln, ln ∈ _clean_lines_to_list text →
        ln ≠ "" ∧ ∀ c, ln.data.head? = some c → markerClass c = false := by
  constructor
  · decide
  · intro text ln h
    obtain ⟨hne, l, rfl⟩ := clean_lines_mem h
    exact ⟨hne, fun c hc => stripMarkers_head l c hc⟩

/-- Witness for C10: the head-character clause applied to a concrete run. -/
theorem claim_C10_strip_run_witness :
    ("alpha beta" : String) ≠ ""
    ∧ ∀ c, ("alpha beta" : String).data.head? = some c → markerClass c = false :=
  claim_C10_strip_run.2 "7) alpha beta" "alpha beta" (by decide)

/-- C4 counterexample: when the generation call returns empty text, the
mini-report endpoint does not fall back — `"" or "{}"` turns the empty
completion into `"{}"`, which parses to the empty JSON object, so every
field defaults to the empty string and the response is the all-empty
report with `live = true`, not the heuristic fallback with `live = false`. -/
theorem claim_C4_counterexample :
    post_ai_mini_report {} (MiniOutcome.calls (CallRes.ok "") (CallRes.ok ""))
      = (emptyMiniData, true)
    ∧ post_ai_mini_report {} (MiniOutcome.calls (CallRes.ok "") (CallRes.ok ""))
      ≠ (_mini_report_fallback {}, false) := by
  have h1 : post_ai_mini_report {} (MiniOutcome.calls (CallRes.ok "") (CallRes.ok ""))
      = (emptyMiniData, true) := by decide
  refine ⟨h1, fun h => ?_⟩
  rw [h1] at h
  have h2 := congrArg (fun x => x.2) h
  simp at h2

/-- C4 (amended): for each of the three pillar endpoints, an unconfigured
client, a transport error, and a completion whose cleaned line list is
empty (in particular empty or whitespace-only text) all yield the
designated static fallback list character-for-character with `live =
false`, and a completion with a non-empty cleaned list yields that list
with `live = true`.  The mini-report endpoint yields the heuristic fallback
with `live = false` exactly when unconfigured or when an exception reaches
the endpoint handler — in particular when the structured attempt's text
fails `json.loads` and the retry call itself fails; when the generation
path completes without an exception its result is returned with `live =
true` — in particular an empty first completion becomes `"{}"` via the
`or "{}"` and yields the all-empty report, and a non-empty first
completion that fails `json.loads` (e.g. whitespace-only text) whose retry
returns non-empty brace-free text (e.g. whitespace-only again) yields the
all-empty report via the empty-object default of the brace search. -/
theorem claim_C4_amended :
    post_environmental_insights PillarOutcome.notConfigured = (environmentalFallback, false)
    ∧ post_environmental_insights PillarOutcome.error = (environmentalFallback, false)
    ∧ (∀ s, _clean_lines_to_list s = [] →
        post_environmental_insights (PillarOutcome.content s) = (environmentalFallback, false))
    ∧ (∀ s, _clean_lines_to_list s ≠ [] →
        post_environmental_insights (PillarOutcome.content s) = (_clean_lines_to_list s, true))
    ∧ post_social_insights PillarOutcome.notConfigured = (socialFallback, false)
    ∧ post_social_insights PillarOutcome.error = (socialFallback, false)
    ∧ (∀ s, _clean_lines_to_list s = [] →
        post_social_insights (PillarOutcome.content s) = (socialFallback, false))
    ∧ (∀ s, _clean_lines_to_list s ≠ [] →
        post_social_insights (PillarOutcome.content s) = (_clean_lines_to_list s, true))
    ∧ post_governance_insights PillarOutcome.notConfigured = (governanceFallback, false)
    ∧ post_governance_insights PillarOutcome.error = (governanceFallback, false)
    ∧ (∀ s, _clean_lines_to_list s = [] →
        post_governance_insights (PillarOutcome.content s) = (governanceFallback, false))
    ∧ (∀ s, _clean_lines_to_list s ≠ [] →
        post_governance_insights (PillarOutcome.content s) = (_clean_lines_to_list s, true))
    ∧ (∀ p, post_ai_mini_report p MiniOutcome.notConfigured = (_mini_report_fallback p, false))
    ∧ (∀ p c1 c2, generate_ai_mini_report c1 c2 = Option.none →
        post_ai_mini_report p (MiniOutcome.calls c1 c2) = (_mini_report_fallback p, false))
    ∧ (∀ p c1 c2 r, generate_ai_mini_report c1 c2 = some r →
        post_ai_mini_report p (MiniOutcome.calls c1 c2) = (r, true))
    ∧ (∀ p c2, post_ai_mini_report p (MiniOutcome.calls (CallRes.ok "") c2)
        = (emptyMiniData, true))
    ∧ (∀ p s, s ≠ "" → jsonLoads s = Option.none →
        post_ai_mini_report p (MiniOutcome.calls (CallRes.ok s) CallRes.err)
          = (_mini_report_fallback p, false))
    ∧ (∀ p s s2, s ≠ "" → jsonLoads s = Option.none →
        s2 ≠ "" → braceSearch s2 = Option.none →
        post_ai_mini_report p (MiniOutcome.calls (CallRes.ok s) (CallRes.ok s2))
          = (emptyMiniData, true))
    ∧ (∀ p, post_ai_mini_report p
        (MiniOutcome.calls (CallRes.ok " ") (CallRes.ok " "))
          = (emptyMiniData, true)) := by
  refine ⟨rfl, rfl, ?_, ?_, rfl, rfl, ?_, ?_, rfl, rfl, ?_, ?_, fun p => rfl,
    ?_, ?_, ?_, ?_, ?_, fun p => rfl⟩
  case refine_10 =>
    intro p s hs hjl
    have hg : generate_ai_mini_report (CallRes.ok s) CallRes.err
        = Option.none := by
      simp only [generate_ai_mini_report]
      rw [if_neg hs, hjl]
    simp [post_ai_mini_report, hg]
  case refine_11 =>
    intro p s s2 hs hjl hs2 hbs
    have hg : generate_ai_mini_report (CallRes.ok s) (CallRes.ok s2)
        = some emptyMiniData := by
      simp only [generate_ai_mini_report]
      rw [if_neg hs, hjl, if_neg hs2, hbs]
      rfl
    simp [post_ai_mini_report, hg]
  all_goals
    first
    | (intro s h
       simp [post_environmental_insights, post_social_insights,
         post_governance_insights, resolveInsights, List.isEmpty_iff, h])
    | (intro p c1 c2 h
       simp [post_ai_mini_report, h])
    | (intro p c1 c2 r h
       simp [post_ai_mini_report, h])
    | (intro p c2
       show (match generate_ai_mini_report (CallRes.ok "") c2 with
             | some report => (report, true)
             | Option.none => (_mini_report_fallback p, false)) = (emptyMiniData, true)
       rfl)

/-- Witness for C4: the environmental success clause applied to a concrete
non-empty completion. -/
theorem claim_C4_amended_witness :
    post_environmental_insights (PillarOutcome.content "Emissions fell.")
      = (["Emissions fell."], true) :=
  claim_C4_amended.2.2.2.1 "Emissions fell." (by decide)

theorem rheNumDen_mul_self (N : ℤ) (d : ℕ) (hd : 0 < d) :
    rheNumDen (N * d) d = N := by
  simp only [rheNumDen]
  rw [Int.mul_fdiv_cancel _ (by exact_mod_cast hd.ne')]
  have h0 : 2 * (N * (d : ℤ) - N * d) = 0 := by ring
  rw [h0]
  rw [if_pos (by exact_mod_cast hd)]

theorem pyRound2_eq_self {q : ℚ} (h : (q * 100).den = 1) : pyRound2 q = q := by
  set N := (q * 100).num with hN
  have hq100 : q * 100 = (N : ℚ) := by
    rw [hN]
    exact_mod_cast ((Rat.den_eq_one_iff _).mp h).symm
  have hden : ((q.den : ℚ)) ≠ 0 := by
    exact_mod_cast q.den_nz
  have hnumQ : (q.num : ℚ) * 100 = (N : ℚ) * (q.den : ℚ) := by
    have hq : (q.num : ℚ) / (q.den : ℚ) = q := Rat.num_div_den q
    field_simp at hq100 ⊢
    rw [← hq] at hq100
    field_simp at hq100
    linarith
  have hnum : q.num * 100 = N * (q.den : ℤ) := by exact_mod_cast hnumQ
  unfold pyRound2
  rw [hnum, rheNumDen_mul_self _ _ q.pos]
  rw [eq_comm, eq_div_iff (by norm_num : (100 : ℚ) ≠ 0)]
  linarith [hq100]

theorem normNum_num (q : ℚ) :
    normNum (some (PyVal.num q)) = some (PyVal.num q) := by
  simp [normNum, floatField, _safe_float]

theorem normalizeRow_synth (E C W WC : ℚ) (i : ℕ) (m : String) :
    normalizeRow (synthMonthRow E C W WC i m) = synthMonthRow E C W WC i m := by
  simp [normalizeRow, synthMonthRow, normNum, floatField, _safe_float]

theorem synth_eq_claim (E C W WC : ℚ) (i : ℕ) (m : String) :
    synthMonthRow E C W WC i m = claimMonthRow E C W WC 2024 i m := by
  simp only [synthMonthRow, claimMonthRow, MonthRow.mk.injEq, Option.some.injEq,
    PyVal.str.injEq, and_true, true_and, eq_self_iff_true]
  rw [String.append_assoc]
  congr 1

theorem extract_success (env : ExtractEnv) (filename txt : String)
    (hdec : env.decodedText = some txt)
    (E C W WC : ℚ)
    (hE : captureFloat env.energyCapture 125000 = some E)
    (hW : captureFloat env.waterCapture 12500 = some W)
    (hC : captureFloat env.chargesCapture (370001/2) = some C)
    (hWC : captureFloat env.waterCostCapture 75000 = some WC) :
    extract_invoice_data_from_pdf env filename
      = _normalize_invoice env.nowIso (successRecord env filename E C W WC) := by
  unfold extract_invoice_data_from_pdf extractBody
  rw [hdec, hE, hW, hC, hWC]
  rfl

theorem captureFloat_wf (cap : Option String) (fb : ℚ)
    (hfb : (fb * 100).den = 1)
    (h : ∀ g, cap = some g → ∃ q : ℚ, pyFloat (removeAll ',' g) = some q ∧ (q * 100).den = 1) :
    ∃ q, captureFloat cap fb = some q ∧ (q * 100).den = 1 := by
  cases cap with
  | none => exact ⟨fb, rfl, hfb⟩
  | some g =>
    obtain ⟨q, hq, hd⟩ := h g rfl
    exact ⟨q, hq, hd⟩

theorem nat_capture_den {cap : Option String}
    (h : ∀ g, cap = some g → ∃ n : ℕ, pyFloat (removeAll ',' g) = some (n : ℚ)) :
    ∀ g, cap = some g → ∃ q : ℚ, pyFloat (removeAll ',' g) = some q ∧ (q * 100).den = 1 := by
  intro g hg
  obtain ⟨n, hn⟩ := h g hg
  refine ⟨(n : ℚ), hn, ?_⟩
  have : ((n : ℚ)) * 100 = ((n * 100 : ℕ) : ℚ) := by push_cast; ring
  rw [this, Rat.den_natCast]

/-- C5 counterexample: the history month labels hardcode the string
`"2024"` (main.py:739), they are not drawn from the current year.  Under a
clock in 2026 (`envPlain`, where every aggregate takes its fallback
constant: energy 125000, charges 185000.50, water 12500, water cost 75000)
the produced labels read `"Jan 2024" .. "Jun 2024"`, while the claim's
history — identical except for its current-year labels — reads
`"Jan 2026" .. "Jun 2026"`; the two histories differ. -/
theorem claim_C5_counterexample :
    histLabels (extract_invoice_data_from_pdf envPlain "inv.pdf").sixMonthHistory
      = ["Jan 2024", "Feb 2024", "Mar 2024", "Apr 2024", "May 2024", "Jun 2024"]
    ∧ envPlain.year = 2026
    ∧ histLabels (some (HistVal.list
        (claimHistory 125000 (370001/2) 12500 75000 envPlain.year)))
      = ["Jan 2026", "Feb 2026", "Mar 2026", "Apr 2026", "May 2026", "Jun 2026"]
    ∧ (extract_invoice_data_from_pdf envPlain "inv.pdf").sixMonthHistory
      ≠ some (HistVal.list
        (claimHistory 125000 (370001/2) 12500 75000 envPlain.year)) := by
  have hL : histLabels (extract_invoice_data_from_pdf envPlain "inv.pdf").sixMonthHistory
      = ["Jan 2024", "Feb 2024", "Mar 2024", "Apr 2024", "May 2024", "Jun 2024"] := by
    decide
  have hR : histLabels (some (HistVal.list
      (claimHistory 125000 (370001/2) 12500 75000 envPlain.year)))
      = ["Jan 2026", "Feb 2026", "Mar 2026", "Apr 2026", "May 2026", "Jun 2026"] := by
    decide
  refine ⟨hL, rfl, hR, fun h => ?_⟩
  have h2 := congrArg histLabels h
  rw [hL, hR] at h2
  exact absurd h2 (by decide)

/-- C5 (amended): on the successful extraction path, the six history
entries follow the claim's formulas — each month value is
`round(aggregate / 6 · (0.90 + 0.05 · i), 2)` with the record's own totals
as aggregates, the carbon estimate is `round(month_energy · 0.99 / 1000,
2)` from the unrounded month energy — but the month labels are
`"Jan".."Jun"` with the hardcoded year 2024, not the current year. -/
theorem claim_C5_amended (env : ExtractEnv) (filename txt : String)
    (hwf : EnvWF env) (hdec : env.decodedText = some txt) :
    ∃ E C W WC : ℚ,
      (extract_invoice_data_from_pdf env filename).total_energy_kwh
        = some (PyVal.num E)
      ∧ (extract_invoice_data_from_pdf env filename).total_current_charges
        = some (PyVal.num C)
      ∧ (extract_invoice_data_from_pdf env filename).total_amount_due
        = some (PyVal.num C)
      ∧ (extract_invoice_data_from_pdf env filename).water_usage
        = some (PyVal.num W)
      ∧ (extract_invoice_data_from_pdf env filename).water_cost
        = some (PyVal.num WC)
      ∧ (extract_invoice_data_from_pdf env filename).sixMonthHistory
        = some (HistVal.list (claimHistory E C W WC 2024)) := by
  obtain ⟨E, hE, hdE⟩ := captureFloat_wf env.energyCapture 125000 (by norm_num)
    (nat_capture_den hwf.energy)
  obtain ⟨W, hW, hdW⟩ := captureFloat_wf env.waterCapture 12500 (by norm_num)
    (nat_capture_den hwf.water)
  obtain ⟨C, hC, hdC⟩ := captureFloat_wf env.chargesCapture (370001/2) (by norm_num)
    hwf.charges
  obtain ⟨WC, hWC, hdWC⟩ := captureFloat_wf env.waterCostCapture 75000 (by norm_num)
    hwf.water_cost
  have hx := extract_success env filename txt hdec E C W WC hE hW hC hWC
  rw [hx]
  refine ⟨E, C, W, WC, ?_, ?_, ?_, ?_, ?_, ?_⟩
  · show normNum (some (PyVal.num (pyRound2 E))) = some (PyVal.num E)
    rw [normNum_num, pyRound2_eq_self hdE]
  · show normNum (some (PyVal.num (pyRound2 C))) = some (PyVal.num C)
    rw [normNum_num, pyRound2_eq_self hdC]
  · show normNum (some (PyVal.num (pyRound2 C))) = some (PyVal.num C)
    rw [normNum_num, pyRound2_eq_self hdC]
  · show normNum (some (PyVal.num (pyRound2 W))) = some (PyVal.num W)
    rw [normNum_num, pyRound2_eq_self hdW]
  · show normNum (some (PyVal.num (pyRound2 WC))) = some (PyVal.num WC)
    rw [normNum_num, pyRound2_eq_self hdWC]
  · show some (HistVal.list ((monthNames.enum.map
        (fun im => synthMonthRow E C W WC im.1 im.2)).map normalizeRow))
      = some (HistVal.list (claimHistory E C W WC 2024))
    rw [List.map_map]
    unfold claimHistory
    have hfun : ∀ im ∈ monthNames.enum,
        (normalizeRow ∘ fun im => synthMonthRow E C W WC im.1 im.2) im
          = (fun im : ℕ × String => claimMonthRow E C W WC 2024 im.1 im.2) im := by
      intro im _
      show normalizeRow (synthMonthRow E C W WC im.1 im.2)
        = claimMonthRow E C W WC 2024 im.1 im.2
      rw [normalizeRow_synth, synth_eq_claim]
    rw [List.map_congr_left hfun]

/-- Witness for C5 (amended): applied to `envPlain` (all four captures
absent, so each aggregate takes its fallback constant). -/
theorem claim_C5_amended_witness :
    ∃ E C W WC : ℚ,
      (extract_invoice_data_from_pdf envPlain "w.pdf").total_energy_kwh
        = some (PyVal.num E)
      ∧ (extract_invoice_data_from_pdf envPlain "w.pdf").total_current_charges
        = some (PyVal.num C)
      ∧ (extract_invoice_data_from_pdf envPlain "w.pdf").total_amount_due
        = some (PyVal.num C)
      ∧ (extract_invoice_data_from_pdf envPlain "w.pdf").water_usage
        = some (PyVal.num W)
      ∧ (extract_invoice_data_from_pdf envPlain "w.pdf").water_cost
        = some (PyVal.num WC)
      ∧ (extract_invoice_data_from_pdf envPlain "w.pdf").sixMonthHistory
        = some (HistVal.list (claimHistory E C W WC 2024)) :=
  claim_C5_amended envPlain "w.pdf" "Monthly statement"
    ⟨(fun g hg => nomatch hg), (fun g hg => nomatch hg),
     (fun g hg => nomatch hg), (fun g hg => nomatch hg)⟩ rfl

/-- C6: whenever the PDF decode throws (any non-parseable byte blob —
`pypdf` missing, `PdfReader` or `extract_text` raising), the extractor
returns the canned total-fallback record: company `"Extracted Company"`,
account `"ACC-FALLBACK"`, the fixed placeholder numeric values, and the
six-entry placeholder history; the error is never propagated (the model
function is total). -/
theorem claim_C6_total_fallback (env : ExtractEnv)
    (h : env.decodedText = Option.none) :
    (extract_invoice_data_from_pdf env "bad.pdf").company_name
      = some (PyVal.str "Extracted Company")
    ∧ (extract_invoice_data_from_pdf env "bad.pdf").account_number
      = some (PyVal.str "ACC-FALLBACK")
    ∧ (extract_invoice_data_from_pdf env "bad.pdf").tax_invoice_number
      = some (PyVal.str "INV-FALLBACK")
    ∧ (extract_invoice_data_from_pdf env "bad.pdf").filename
      = some (PyVal.str "bad.pdf")
    ∧ (extract_invoice_data_from_pdf env "bad.pdf").total_current_charges
      = some (PyVal.num 150000)
    ∧ (extract_invoice_data_from_pdf env "bad.pdf").total_amount_due
      = some (PyVal.num 150000)
    ∧ (extract_invoice_data_from_pdf env "bad.pdf").total_energy_kwh
      = some (PyVal.num 100000)
    ∧ (extract_invoice_data_from_pdf env "bad.pdf").water_usage
      = some (PyVal.num 10000)
    ∧ (extract_invoice_data_from_pdf env "bad.pdf").water_cost
      = some (PyVal.num 50000)
    ∧ (extract_invoice_data_from_pdf env "bad.pdf").sixMonthHistory
      = some (HistVal.list ((monthNames.map fallbackMonthRow).map normalizeRow))
    ∧ (monthNames.map fallbackMonthRow).map normalizeRow
      = monthNames.map fallbackMonthRow := by
  have hx : extract_invoice_data_from_pdf env "bad.pdf"
      = _normalize_invoice env.nowIso (totalFallbackRecord env "bad.pdf") := by
    unfold extract_invoice_data_from_pdf
    rw [h]
  rw [hx]
  refine ⟨rfl, rfl, rfl, rfl, ?_, ?_, ?_, ?_, ?_, rfl, ?_⟩
  · exact normNum_num 150000
  · exact normNum_num 150000
  · exact normNum_num 100000
  · exact normNum_num 10000
  · exact normNum_num 50000
  · rw [List.map_map]
    exact List.map_congr_left (fun m _ => by
      show normalizeRow (fallbackMonthRow m) = fallbackMonthRow m
      simp [normalizeRow, fallbackMonthRow, normNum, floatField, _safe_float])

/-- Witness for C6: applied to the concrete failing-decode environment. -/
theorem claim_C6_total_fallback_witness :
    (extract_invoice_data_from_pdf envDecodeFail "bad.pdf").company_name
      = some (PyVal.str "Extracted Company")
    ∧ (extract_invoice_data_from_pdf envDecodeFail "bad.pdf").account_number
      = some (PyVal.str "ACC-FALLBACK") :=
  ⟨(claim_C6_total_fallback envDecodeFail rfl).1,
   (claim_C6_total_fallback envDecodeFail rfl).2.1⟩

theorem dget_filter_out (metrics : List (String × PyVal)) (k : String)
    (hk : k ∈ renewKeys) :
    dget (metrics.filter (fun kv => decide (kv.1 ∉ renewKeys))) k = Option.none := by
  induction metrics with
  | nil => rfl
  | cons kv rest ih =>
    rw [List.filter_cons]
    by_cases hc : kv.1 ∈ renewKeys
    · rw [if_neg (by simp [hc])]
      exact ih
    · rw [if_pos (by simp [hc])]
      unfold dget at ih ⊢
      rw [List.find?_cons]
      have hd : decide (kv.1 = k) = false := by
        simp only [decide_eq_false_iff_not]
        intro he
        exact hc (he ▸ hk)
      rw [hd]
      exact ih

theorem firstRenew_dropped (metrics : List (String × PyVal)) :
    firstRenew (metrics.filter (fun kv => decide (kv.1 ∉ renewKeys))) = Option.none := by
  unfold firstRenew
  rw [List.find?_eq_none.mpr]
  intro k hk
  rw [dget_filter_out metrics k hk]
  simp

/-- C8 counterexample: the fallback probes the recognized key spellings in
a fixed order and keeps the first hit; in a payload whose
`renewableEnergy` holds the non-numeric `"abc"` while `renewable_energy`
holds `"15"` (present under a recognized spelling, parsing to 15 < 20),
the parse of the first hit fails silently and no renewable recommendation
is prepended and no customized narrative is produced — contradicting the
claim, which only requires *some* recognized key to parse below 20. -/
theorem claim_C8_counterexample :
    dget (miniPayloadC8.metrics.getD []) "renewable_energy" = some (PyVal.str "15")
    ∧ renewParse (some (PyVal.str "15")) = some 15
    ∧ (15 : ℚ) < 20
    ∧ (_mini_report_fallback miniPayloadC8).ai_recommendations.head?
        ≠ some miniRenewRec
    ∧ (_mini_report_fallback miniPayloadC8).ai_recommendations.head?
        = some "Confirm monthly baselines from invoices (energy kWh, water m³, charges) and lock the reporting boundary (sites/meters)."
    ∧ (_mini_report_fallback miniPayloadC8).performance_vs_benchmark
        = miniDefaultPerf := by
  refine ⟨rfl, by decide, by decide, by decide, by decide, ?_⟩
  rfl

set_option maxRecDepth 20000 in
/-- C8 (amended): when the *first* recognized renewable-share key present
(probe order renewableEnergy, renewable_energy, renewableEnergyShare,
renewable_energy_share) parses — percent sign and whitespace stripped —
to a value below 20, the recommendation list starts with the
renewable-prioritization entry and the performance narrative carries the
value formatted to one decimal; when the first hit fails to parse, the
failure is silent and the output equals that for the payload with every
recognized key removed.  Scenario: `"renewableEnergy": "15%"` produces the
prioritization recommendation first and a narrative containing `"15.0%"`. -/
theorem claim_C8_amended :
    (∀ p v r, firstRenew (p.metrics.getD []) = some v →
        renewParse (some v) = some r → r < 20 →
        (_mini_report_fallback p).ai_recommendations.head? = some miniRenewRec
        ∧ (_mini_report_fallback p).performance_vs_benchmark = miniBelowPerf r)
    ∧ (∀ p v, firstRenew (p.metrics.getD []) = some v →
        renewParse (some v) = Option.none →
        _mini_report_fallback p = _mini_report_fallback (dropRenewKeys p))
    ∧ (_mini_report_fallback miniPayloadRenew15).ai_recommendations.head?
        = some miniRenewRec
    ∧ (_mini_report_fallback miniPayloadRenew15).performance_vs_benchmark
        = miniBelowPerf 15
    ∧ "15.0%".data <:+: (_mini_report_fallback miniPayloadRenew15).performance_vs_benchmark.data := by
  refine ⟨?_, ?_, by decide, by rfl, by decide⟩
  · intro p v r h1 h2 h3
    simp only [_mini_report_fallback]
    rw [h1, h2]
    refine ⟨?_, ?_⟩ <;> simp [h3]
  · intro p v h1 h2
    have hR : firstRenew ((dropRenewKeys p).metrics.getD [])
        = Option.none := firstRenew_dropped _
    simp only [_mini_report_fallback]
    rw [h1, h2, hR]
    rfl

set_option maxRecDepth 20000 in
/-- Witness for C8 (amended): the below-20 clause applied to the scenario
payload. -/
theorem claim_C8_amended_witness :
    (_mini_report_fallback miniPayloadRenew15).ai_recommendations.head?
      = some miniRenewRec
    ∧ (_mini_report_fallback miniPayloadRenew15).performance_vs_benchmark
      = miniBelowPerf 15 :=
  claim_C8_amended.1 miniPayloadRenew15 (PyVal.str "15%") 15 rfl (by decide) (by decide)

theorem bulkLoop_eq (files : List UploadFile) :
    ∀ invs errs, bulkLoop files invs errs
      = (invs ++ files.filterMap (fun f =>
          match f.readResult with
          | Except.ok env => some (extract_invoice_data_from_pdf env f.filename)
          | Except.error _ => Option.none),
         errs ++ files.filterMap (fun f =>
          match f.readResult with
          | Except.ok _ => Option.none
          | Except.error e => some (f.filename ++ ": " ++ e))) := by
  induction files with
  | nil => intro invs errs; simp [bulkLoop]
  | cons f rest ih =>
    intro invs errs
    cases hr : f.readResult with
    | ok env =>
      rw [bulkLoop, hr]
      show bulkLoop rest (invs ++ [extract_invoice_data_from_pdf env f.filename]) errs = _
      rw [ih]
      simp [List.filterMap_cons, hr, List.append_assoc]
    | error e =>
      rw [bulkLoop, hr]
      show bulkLoop rest invs (errs ++ [f.filename ++ ": " ++ e]) = _
      rw [ih]
      simp [List.filterMap_cons, hr, List.append_assoc]

/-- C9: bulk upload processes the files strictly in submission order; a
file whose read fails contributes exactly one error entry
`"<filename>: <message>"` and no record, every other file still produces a
record, `uploaded_count` counts the produced records, and the `success`
flag is true exactly when the errors list is empty.  In particular, a
three-file batch whose second file fails on read yields two records, one
error entry naming that file, and `success = false`. -/
theorem claim_C9_bulk_upload :
    (∀ files : List UploadFile,
      (bulk_upload_invoices files).invoices
        = files.filterMap (fun f =>
            match f.readResult with
            | Except.ok env => some (extract_invoice_data_from_pdf env f.filename)
            | Except.error _ => Option.none)
      ∧ (bulk_upload_invoices files).errors
        = files.filterMap (fun f =>
            match f.readResult with
            | Except.ok _ => Option.none
            | Except.error e => some (f.filename ++ ": " ++ e))
      ∧ (bulk_upload_invoices files).uploaded_count
        = (bulk_upload_invoices files).invoices.length
      ∧ ((bulk_upload_invoices files).success = true
          ↔ (bulk_upload_invoices files).errors = []))
    ∧ (bulk_upload_invoices
        [⟨"a.pdf", Except.ok envPlain⟩,
         ⟨"b.pdf", Except.error "read failed"⟩,
         ⟨"c.pdf", Except.ok envDecodeFail⟩]).uploaded_count = 2
    ∧ (bulk_upload_invoices
        [⟨"a.pdf", Except.ok envPlain⟩,
         ⟨"b.pdf", Except.error "read failed"⟩,
         ⟨"c.pdf", Except.ok envDecodeFail⟩]).errors = ["b.pdf: read failed"]
    ∧ (bulk_upload_invoices
        [⟨"a.pdf", Except.ok envPlain⟩,
         ⟨"b.pdf", Except.error "read failed"⟩,
         ⟨"c.pdf", Except.ok envDecodeFail⟩]).success = false := by
  refine ⟨?_, by decide, by decide, by decide⟩
  intro files
  unfold bulk_upload_invoices
  rw [bulkLoop_eq files [] []]
  simp only [List.nil_append]
  exact ⟨trivial, trivial, trivial, by simp⟩
